import Mathlib

/-!
Shallow embedding of `src/detect_bounding_box.py`.

Conventions of the embedding:
* Python strings are `List Char`; `str.strip()` is `pyStrip`, `str.split()`
  (split on whitespace runs, dropping empty tokens) is `pySplit`.
* Python floats are modelled as exact rationals `ℚ` (the literals `0.5`,
  `1.2`, `1.5` used by the source are taken exactly).
* `raise ValueError(...)` is modelled with `Except PdfError`; the two
  distinct messages of `detect_bounding_box`
  (`"No text blocks found on the page."` and
  `"Location must be either 'top' or 'bottom'."`) become the two
  constructors `PdfError.noTextBlocksFound` and `PdfError.invalidLocation`.
* The side effects of `detect_bounding_box` on the document
  (`page.draw_rect`, `page.insert_text`, `doc.save`) are recorded in an
  explicit trace of `Effect`s; an error path produces an empty trace.
* The `font_size is None` branch (which reads the average font size from
  the file) is outside the model: `font_size` is always supplied, matching
  every claim under verification.
-/

/-- `str.strip()` on `List Char`: drop whitespace from both ends. -/
def pyStrip (s : List Char) : List Char :=
  ((s.dropWhile Char.isWhitespace).reverse.dropWhile Char.isWhitespace).reverse

/-- Accumulator-based helper for `pySplit`; `acc` holds the current token
reversed. -/
def pySplitAux : List Char → List Char → List (List Char)
  | [], acc => if acc = [] then [] else [acc.reverse]
  | c :: rest, acc =>
    if Char.isWhitespace c then
      if acc = [] then pySplitAux rest [] else acc.reverse :: pySplitAux rest []
    else
      pySplitAux rest (c :: acc)

/-- `str.split()` with no argument: split on runs of whitespace, never
producing empty tokens. -/
def pySplit (s : List Char) : List (List Char) :=
  pySplitAux s []

/-- Embedding of `calculate_text_dimensions` (lines 85-99 of the source):
`char_width = font_size * 0.5`, `text_width = len(text) * char_width`,
`text_height = font_size * 1.2`. -/
def calculate_text_dimensions (text : List Char) (font_size : ℚ) : ℚ × ℚ :=
  let char_width := font_size * 0.5
  let text_width := (text.length : ℚ) * char_width
  let text_height := font_size * 1.2
  (text_width, text_height)

/-- One text block as unpacked from `page.get_text("blocks")`:
`x0, y0, x1, y1, text2, block_no, block_type`. -/
structure TextBlock where
  x0 : ℚ
  y0 : ℚ
  x1 : ℚ
  y1 : ℚ
  text : List Char
  block_no : Nat
  block_type : Nat
deriving DecidableEq

/-- The page data `detect_bounding_box` reads: `page.rect.width`,
`page.rect.height` and the list returned by `page.get_text("blocks")`. -/
structure Page where
  width : ℚ
  height : ℚ
  blocks : List TextBlock
deriving DecidableEq

/-- The two `ValueError`s that `detect_bounding_box` can raise. -/
inductive PdfError where
  | noTextBlocksFound
  | invalidLocation
deriving DecidableEq

/-- Document mutations performed by `detect_bounding_box`, in order. -/
inductive Effect where
  | draw_rect (r : ℚ × ℚ × ℚ × ℚ)
  | insert_text (p : ℚ × ℚ) (line : List Char)
  | save
deriving DecidableEq

/-- The loop state of the greedy wrap in `detect_bounding_box`
(lines 147-149): `lines`, `current_line`, `max_line_width`. -/
structure WrapState where
  lines : List (List Char)
  current_line : List Char
  max_line_width : ℚ
deriving DecidableEq

/-- One iteration of the wrap loop (lines 150-158):
`test_line = f"{current_line} {word}".strip()`,
`test_width, _ = calculate_text_dimensions(test_line, font_size)`;
accept the candidate when `test_width <= box_width`, otherwise push
`current_line` and restart from `word`; in both branches
`max_line_width = max(max_line_width, test_width)`. -/
def wrapStep (font_size box_width : ℚ) (st : WrapState) (word : List Char) :
    WrapState :=
  let test_line := pyStrip (st.current_line ++ (' ' :: word))
  let test_width := (calculate_text_dimensions test_line font_size).1
  if test_width ≤ box_width then
    ⟨st.lines, test_line, max st.max_line_width test_width⟩
  else
    ⟨st.lines ++ [st.current_line], word, max st.max_line_width test_width⟩

/-- The whole wrap loop, starting from `lines = []`, `current_line = ""`,
`max_line_width = 0`. -/
def wrapWords (font_size box_width : ℚ) (words : List (List Char)) : WrapState :=
  words.foldl (wrapStep font_size box_width) ⟨[], [], 0⟩

/-- Lines 160-162: `if current_line: lines.append(current_line)`. -/
def finalLines (st : WrapState) : List (List Char) :=
  if st.current_line = [] then st.lines else st.lines ++ [st.current_line]

/-- Lines 132-138: the fold computing `lowest_y1`, starting from `0`;
a block contributes only when `text2.strip()` is non-empty AND the input
`text` is non-empty (`if text2.strip() and text != ""`). -/
def lowest_y1_calc (blocks : List TextBlock) (text : List Char) : ℚ :=
  blocks.foldl
    (fun acc b =>
      if pyStrip b.text ≠ [] ∧ text ≠ [] then
        (if b.y1 > acc then b.y1 else acc)
      else acc)
    0

/-- Lines 183-193: draw the wrapped lines top to bottom starting at
`current_y = y0 + font_size * 1.2`, stopping (`break`) as soon as
`current_y > y1`, advancing by `font_size * 1.5` per line. -/
def insertLoop (font_size y1 x0 : ℚ) : ℚ → List (List Char) → List Effect
  | _, [] => []
  | current_y, line :: rest =>
    if current_y > y1 then []
    else
      Effect.insert_text (x0, current_y) line ::
        insertLoop font_size y1 x0 (current_y + font_size * 1.5) rest

/-- Embedding of `detect_bounding_box` (lines 102-200) with `font_size`
given. Returns the result of the call (the box or the raised error)
together with the trace of document mutations performed before returning. -/
def detect_bounding_box (page : Page) (text : List Char) (location : String)
    (font_size : ℚ) : Except PdfError (ℚ × ℚ × ℚ × ℚ) × List Effect :=
  if page.blocks = [] then
    (Except.error PdfError.noTextBlocksFound, [])
  else
    let lowest_y1 := lowest_y1_calc page.blocks text
    let margin : ℚ := 10
    let box_width := page.width - 2 * margin
    let st := wrapWords font_size box_width (pySplit text)
    let lines := finalLines st
    let box_height := font_size * 1.5 * (lines.length : ℚ)
    let tail := fun (x0 y0 : ℚ) =>
      let x1 := min (x0 + st.max_line_width) (page.width - margin)
      let y1 := y0 + box_height
      (Except.ok (x0, y0, x1, y1),
        Effect.draw_rect (x0, y0, x1, y1) ::
          (insertLoop font_size y1 x0 (y0 + font_size * 1.2) lines ++
            [Effect.save]))
    if location = "top" then tail margin margin
    else if location = "bottom" then tail margin (lowest_y1 + margin)
    else (Except.error PdfError.invalidLocation, [])

/-- Embedding of `calculate_bounding_box` (lines 32-53): the page-anchored
helper, independent of any text blocks. -/
def calculate_bounding_box (page_width page_height font_size : ℚ)
    (location : String) : Except PdfError (ℚ × ℚ × ℚ × ℚ) :=
  let margin : ℚ := 10
  let box_height := font_size * 1.5
  if location = "top" then
    Except.ok (margin, margin, page_width - margin, margin + box_height)
  else if location = "bottom" then
    Except.ok (margin, page_height - box_height - margin, page_width - margin,
      page_height - margin)
  else
    Except.error PdfError.invalidLocation

/-- Modelled from the spec (section 4.3): `lowestExistingTextY1` is the
maximum `y1` among blocks with non-blank text, defaulting to `0` when no
block qualifies. Unlike the code's `lowest_y1` fold it does not consult
the input watermark text. -/
def lowestExistingTextY1 (blocks : List TextBlock) : ℚ :=
  blocks.foldl (fun acc b => if pyStrip b.text ≠ [] then max acc b.y1 else acc) 0

/-- Concrete fixture: a page with no text blocks at all. -/
def pageNoBlocks : Page := ⟨100, 100, []⟩

/-- Concrete fixture: a 100x100 page with one non-blank text block whose
bottom edge is `y1 = 30`. -/
def pageOneBlock : Page := ⟨100, 100, [⟨0, 0, 50, 30, "x".toList, 0, 0⟩]⟩

/-- Concrete fixture: a 200x200 page with one non-blank text block whose
bottom edge is `y1 = 100`. -/
def pageBlockY100 : Page :=
  ⟨200, 200, [⟨10, 50, 150, 100, "hello".toList, 0, 0⟩]⟩

/-! ### Basic lemmas about the string helpers -/

/-- `dropWhile` is the identity on a list none of whose elements satisfy
the predicate. -/
theorem dropWhile_eq_self_of_none (p : Char → Bool) (l : List Char)
    (h : ∀ c ∈ l, p c = false) : l.dropWhile p = l := by
  cases l with
  | nil => rfl
  | cons a t =>
    rw [List.dropWhile_cons, h a (List.mem_cons_self a t)]
    simp

/-- Stripping a string with no whitespace characters is the identity. -/
theorem pyStrip_no_ws (s : List Char)
    (h : ∀ c ∈ s, Char.isWhitespace c = false) : pyStrip s = s := by
  unfold pyStrip
  rw [dropWhile_eq_self_of_none _ s h,
    dropWhile_eq_self_of_none _ s.reverse (fun c hc => h c (List.mem_reverse.mp hc)),
    List.reverse_reverse]

/-- A leading space is removed by `pyStrip`. -/
theorem pyStrip_space_cons (w : List Char) : pyStrip (' ' :: w) = pyStrip w := by
  have hsp : Char.isWhitespace ' ' = true := by decide
  unfold pyStrip
  rw [List.dropWhile_cons, hsp]
  simp

/-- Every token produced by `pySplitAux` from a whitespace-free accumulator
is non-empty and whitespace-free. -/
theorem pySplitAux_mem (s : List Char) : ∀ (acc : List Char) (w : List Char),
    (∀ c ∈ acc, Char.isWhitespace c = false) → w ∈ pySplitAux s acc →
    w ≠ [] ∧ ∀ c ∈ w, Char.isWhitespace c = false := by
  induction s with
  | nil =>
    intro acc w hacc hw
    by_cases h : acc = []
    · simp [pySplitAux, h] at hw
    · rw [pySplitAux, if_neg h] at hw
      rcases List.mem_singleton.mp hw with rfl
      refine ⟨by simpa using h, fun c hc => hacc c (List.mem_reverse.mp hc)⟩
  | cons a rest ih =>
    intro acc w hacc hw
    rw [pySplitAux] at hw
    by_cases ha : Char.isWhitespace a = true
    · rw [if_pos ha] at hw
      by_cases h : acc = []
      · rw [if_pos h] at hw
        exact ih [] w (by simp) hw
      · rw [if_neg h] at hw
        rcases List.mem_cons.mp hw with rfl | h1
        · exact ⟨by simpa using h, fun c hc => hacc c (List.mem_reverse.mp hc)⟩
        · exact ih [] w (by simp) h1
    · rw [if_neg ha] at hw
      refine ih (a :: acc) w ?_ hw
      intro c hc
      rcases List.mem_cons.mp hc with rfl | hc
      · exact Bool.not_eq_true _ ▸ ha
      · exact hacc c hc

/-- Every word produced by `pySplit` is non-empty and whitespace-free,
exactly as for Python's `str.split()`. -/
theorem pySplit_tokens (s : List Char) (w : List Char) (hw : w ∈ pySplit s) :
    w ≠ [] ∧ ∀ c ∈ w, Char.isWhitespace c = false :=
  pySplitAux_mem s [] w (by simp) hw

/-! ### Lemmas about the greedy wrap loop -/

/-- The accepting branch of the wrap loop. -/
theorem wrapStep_accept (font_size box_width : ℚ) (st : WrapState)
    (word : List Char)
    (h : (calculate_text_dimensions (pyStrip (st.current_line ++ (' ' :: word)))
      font_size).1 ≤ box_width) :
    wrapStep font_size box_width st word =
      ⟨st.lines, pyStrip (st.current_line ++ (' ' :: word)),
        max st.max_line_width
          (calculate_text_dimensions (pyStrip (st.current_line ++ (' ' :: word)))
            font_size).1⟩ := by
  simp only [wrapStep]
  rw [if_pos h]

/-- The rejecting branch of the wrap loop: the previous `current_line` is
emitted and the new line starts with just `word`; `max_line_width` is
nevertheless updated with the rejected candidate's width. -/
theorem wrapStep_reject (font_size box_width : ℚ) (st : WrapState)
    (word : List Char)
    (h : ¬ (calculate_text_dimensions (pyStrip (st.current_line ++ (' ' :: word)))
      font_size).1 ≤ box_width) :
    wrapStep font_size box_width st word =
      ⟨st.lines ++ [st.current_line], word,
        max st.max_line_width
          (calculate_text_dimensions (pyStrip (st.current_line ++ (' ' :: word)))
            font_size).1⟩ := by
  simp only [wrapStep]
  rw [if_neg h]

/-- Invariant of the wrap loop: if every word is a non-empty,
whitespace-free token whose width fits in `box_width`, then the current
line is empty or fits, and every emitted line fits. -/
theorem wrap_inv (font_size box_width : ℚ) :
    ∀ (words : List (List Char)) (st : WrapState),
      (∀ w ∈ words, w ≠ [] ∧ (∀ c ∈ w, Char.isWhitespace c = false) ∧
        (calculate_text_dimensions w font_size).1 ≤ box_width) →
      (st.current_line = [] ∨
        (calculate_text_dimensions st.current_line font_size).1 ≤ box_width) →
      (∀ l ∈ st.lines, (calculate_text_dimensions l font_size).1 ≤ box_width) →
      ((words.foldl (wrapStep font_size box_width) st).current_line = [] ∨
        (calculate_text_dimensions
          (words.foldl (wrapStep font_size box_width) st).current_line
          font_size).1 ≤ box_width) ∧
      ∀ l ∈ (words.foldl (wrapStep font_size box_width) st).lines,
        (calculate_text_dimensions l font_size).1 ≤ box_width := by
  intro words
  induction words with
  | nil => intro st _ h1 h2; exact ⟨h1, h2⟩
  | cons w ws ih =>
    intro st hws h1 h2
    obtain ⟨hne, hch, hwd⟩ := hws w (List.mem_cons_self _ _)
    have hws2 : ∀ x ∈ ws, x ≠ [] ∧ (∀ c ∈ x, Char.isWhitespace c = false) ∧
        (calculate_text_dimensions x font_size).1 ≤ box_width :=
      fun x hx => hws x (List.mem_cons_of_mem _ hx)
    rw [List.foldl_cons]
    by_cases hfit : (calculate_text_dimensions
        (pyStrip (st.current_line ++ (' ' :: w))) font_size).1 ≤ box_width
    · rw [wrapStep_accept font_size box_width st w hfit]
      exact ih _ hws2 (Or.inr hfit) h2
    · rw [wrapStep_reject font_size box_width st w hfit]
      refine ih _ hws2 (Or.inr hwd) ?_
      intro l hl
      rcases List.mem_append.mp hl with hl | hl
      · exact h2 l hl
      · rcases List.mem_singleton.mp hl with rfl
        rcases h1 with hcur | hcur
        · exfalso
          apply hfit
          rw [hcur, List.nil_append, pyStrip_space_cons, pyStrip_no_ws w hch]
          exact hwd
        · exact hcur

/-- All lines produced by the full wrap (including the trailing
`current_line`) fit in `box_width`, provided every word does. -/
theorem wrap_lines_bounded (font_size box_width : ℚ) (words : List (List Char))
    (hws : ∀ w ∈ words, w ≠ [] ∧ (∀ c ∈ w, Char.isWhitespace c = false) ∧
      (calculate_text_dimensions w font_size).1 ≤ box_width) :
    ∀ l ∈ finalLines (wrapWords font_size box_width words),
      (calculate_text_dimensions l font_size).1 ≤ box_width := by
  obtain ⟨hcur, hlines⟩ := wrap_inv font_size box_width words ⟨[], [], 0⟩ hws
    (Or.inl rfl) (by intro l hl; simp at hl)
  intro l hl
  unfold finalLines at hl
  by_cases h : (wrapWords font_size box_width words).current_line = []
  · rw [if_pos h] at hl
    exact hlines l hl
  · rw [if_neg h] at hl
    rcases List.mem_append.mp hl with hl | hl
    · exact hlines l hl
    · rcases List.mem_singleton.mp hl with rfl
      rcases hcur with hcur | hcur
      · exact absurd hcur h
      · exact hcur

/-! ### Characterization of `detect_bounding_box` on each path -/

/-- On a page with text blocks, `location="top"` returns the box with
origin `(10, 10)`, the clamped right edge, and height
`font_size * 1.5 * len(lines)`. -/
theorem detect_top_eq (page : Page) (text : List Char) (font_size : ℚ)
    (hb : page.blocks ≠ []) :
    detect_bounding_box page text "top" font_size =
      (Except.ok (10, 10,
        min (10 + (wrapWords font_size (page.width - 2 * 10)
          (pySplit text)).max_line_width) (page.width - 10),
        10 + font_size * 1.5 * ((finalLines (wrapWords font_size
          (page.width - 2 * 10) (pySplit text))).length : ℚ)),
       Effect.draw_rect (10, 10,
        min (10 + (wrapWords font_size (page.width - 2 * 10)
          (pySplit text)).max_line_width) (page.width - 10),
        10 + font_size * 1.5 * ((finalLines (wrapWords font_size
          (page.width - 2 * 10) (pySplit text))).length : ℚ)) ::
        (insertLoop font_size
          (10 + font_size * 1.5 * ((finalLines (wrapWords font_size
            (page.width - 2 * 10) (pySplit text))).length : ℚ)) 10
          (10 + font_size * 1.2)
          (finalLines (wrapWords font_size (page.width - 2 * 10)
            (pySplit text))) ++ [Effect.save])) := by
  unfold detect_bounding_box
  rw [if_neg hb]
  rfl

/-- On a page with text blocks, `location="bottom"` returns the box whose
`y0` is `lowest_y1 + 10`. -/
theorem detect_bottom_eq (page : Page) (text : List Char) (font_size : ℚ)
    (hb : page.blocks ≠ []) :
    detect_bounding_box page text "bottom" font_size =
      (Except.ok (10, lowest_y1_calc page.blocks text + 10,
        min (10 + (wrapWords font_size (page.width - 2 * 10)
          (pySplit text)).max_line_width) (page.width - 10),
        lowest_y1_calc page.blocks text + 10 + font_size * 1.5 *
          ((finalLines (wrapWords font_size (page.width - 2 * 10)
            (pySplit text))).length : ℚ)),
       Effect.draw_rect (10, lowest_y1_calc page.blocks text + 10,
        min (10 + (wrapWords font_size (page.width - 2 * 10)
          (pySplit text)).max_line_width) (page.width - 10),
        lowest_y1_calc page.blocks text + 10 + font_size * 1.5 *
          ((finalLines (wrapWords font_size (page.width - 2 * 10)
            (pySplit text))).length : ℚ)) ::
        (insertLoop font_size
          (lowest_y1_calc page.blocks text + 10 + font_size * 1.5 *
            ((finalLines (wrapWords font_size (page.width - 2 * 10)
              (pySplit text))).length : ℚ)) 10
          (lowest_y1_calc page.blocks text + 10 + font_size * 1.2)
          (finalLines (wrapWords font_size (page.width - 2 * 10)
            (pySplit text))) ++ [Effect.save])) := by
  unfold detect_bounding_box
  rw [if_neg hb]
  rfl

/-- On a page with text blocks and a location that is neither `"top"` nor
`"bottom"`, the call raises `invalidLocation` and performs no mutation. -/
theorem detect_invalid_eq (page : Page) (text : List Char) (location : String)
    (font_size : ℚ) (hb : page.blocks ≠ [])
    (h1 : location ≠ "top") (h2 : location ≠ "bottom") :
    detect_bounding_box page text location font_size =
      (Except.error PdfError.invalidLocation, []) := by
  unfold detect_bounding_box
  rw [if_neg hb]
  simp only [if_neg h1, if_neg h2]

/-- On a page with no text blocks, the call raises `noTextBlocksFound`
before even looking at the location, and performs no mutation. -/
theorem detect_no_blocks_eq (page : Page) (text : List Char)
    (location : String) (font_size : ℚ) (hb : page.blocks = []) :
    detect_bounding_box page text location font_size =
      (Except.error PdfError.noTextBlocksFound, []) := by
  unfold detect_bounding_box
  rw [if_pos hb]

/-! ### Lemmas about the `lowest_y1` fold -/

/-- With a non-empty input text, the code's `lowest_y1` fold agrees with
the spec's `lowestExistingTextY1`. -/
theorem lowest_y1_eq_spec (blocks : List TextBlock) (text : List Char)
    (ht : text ≠ []) :
    lowest_y1_calc blocks text = lowestExistingTextY1 blocks := by
  unfold lowest_y1_calc lowestExistingTextY1
  refine List.foldl_ext _ _ _ ?_
  intro acc b _
  by_cases hb : pyStrip b.text = []
  · simp [hb]
  · simp only [hb, ht, ne_eq, not_false_iff, and_self, if_true]
    rcases le_or_lt b.y1 acc with h | h
    · rw [if_neg (not_lt.mpr h), max_eq_left h]
    · rw [if_pos h, max_eq_right h.le]

/-- With an empty input text, the `lowest_y1` fold never fires and stays 0. -/
theorem lowest_y1_empty_text (blocks : List TextBlock) :
    lowest_y1_calc blocks [] = 0 := by
  unfold lowest_y1_calc
  exact List.foldl_fixed' (fun b => by simp) blocks

/-! ### Evaluation helpers for concrete inputs -/

/-- The twenty-character word of property 6 has width 10 at font size 1. -/
theorem width_twenty_a :
    (calculate_text_dimensions ("aaaaaaaaaaaaaaaaaaaa".toList) 1).1 = 10 := by
  norm_num +decide [calculate_text_dimensions]

/-- Each word of `"aa bb cc"` has width 2 at font size 2. -/
theorem c5_words_fit :
    ∀ w ∈ pySplit ("aa bb cc".toList), (calculate_text_dimensions w 2).1 ≤ 3 := by
  intro w hw
  rw [(by decide : pySplit ("aa bb cc".toList) =
    ["aa".toList, "bb".toList, "cc".toList])] at hw
  simp only [List.mem_cons, List.not_mem_nil, or_false] at hw
  have hlen : w.length = 2 := by
    rcases hw with rfl | rfl | rfl <;> decide
  unfold calculate_text_dimensions
  rw [hlen]
  norm_num

/-- The wrap of `"aa bb cc"` at font size 2 and width budget 3 emits the
three words as three lines. -/
theorem c5_lines_eval :
    finalLines (wrapWords 2 3 (pySplit ("aa bb cc".toList))) =
      ["aa".toList, "bb".toList, "cc".toList] := by
  norm_num +decide [pySplit, pySplitAux, wrapWords, wrapStep, finalLines,
    calculate_text_dimensions, pyStrip]

/-- Concrete run used by the C7 witness: on `pageOneBlock`, top placement
of `"hi"` at font size 12 returns the box `(10, 10, 22, 28)`. -/
theorem c7_concrete_run :
    (detect_bounding_box pageOneBlock ("hi".toList) "top" 12).1 =
      Except.ok (10, 10, 22, 28) := by
  norm_num +decide [pageOneBlock, detect_bounding_box, pySplit, pySplitAux,
    wrapWords, wrapStep, finalLines, calculate_text_dimensions, pyStrip,
    lowest_y1_calc]

/-! ### C1 -/

/-- C1 counterexample: wrapping the single word `"aaaaaaaaaaaaaaaaaaaa"`
(width 10 at font size 1) with `maxWidth = 5` yields TWO lines — an empty
first line and then the word — not "exactly one line" as claimed. -/
theorem C1_counterexample :
    finalLines (wrapWords 1 5 (pySplit ("aaaaaaaaaaaaaaaaaaaa".toList))) =
      [[], "aaaaaaaaaaaaaaaaaaaa".toList] ∧
    (finalLines (wrapWords 1 5 (pySplit ("aaaaaaaaaaaaaaaaaaaa".toList)))).length
      ≠ 1 := by
  have h : finalLines (wrapWords 1 5 (pySplit ("aaaaaaaaaaaaaaaaaaaa".toList))) =
      [[], "aaaaaaaaaaaaaaaaaaaa".toList] := by
    norm_num +decide [pySplit, pySplitAux, wrapWords, wrapStep, finalLines,
      calculate_text_dimensions, pyStrip]
  exact ⟨h, by rw [h]; decide⟩

/-- C1 (amended): wrapping an input consisting of a single word whose
measured width exceeds `maxWidth` returns exactly two lines — an empty
first line followed by that word unmodified — without raising and without
truncation. -/
theorem C1_theorem (text : List Char) (font_size box_width : ℚ)
    (w : List Char) (hsplit : pySplit text = [w])
    (hwide : box_width < (calculate_text_dimensions w font_size).1) :
    finalLines (wrapWords font_size box_width (pySplit text)) = [[], w] := by
  obtain ⟨hne, hch⟩ := pySplit_tokens text w
    (by rw [hsplit]; exact List.mem_singleton_self w)
  rw [hsplit]
  unfold wrapWords
  rw [List.foldl_cons, List.foldl_nil]
  have hstrip : pyStrip ((⟨[], [], 0⟩ : WrapState).current_line ++ (' ' :: w)) = w := by
    show pyStrip ([] ++ (' ' :: w)) = w
    rw [List.nil_append, pyStrip_space_cons, pyStrip_no_ws w hch]
  rw [wrapStep_reject font_size box_width ⟨[], [], 0⟩ w (by rw [hstrip]; exact not_le.mpr hwide)]
  unfold finalLines
  simp [hne]

/-- C1 witness: the amended claim at the concrete input of property 6. -/
theorem C1_witness :
    pySplit ("aaaaaaaaaaaaaaaaaaaa".toList) = ["aaaaaaaaaaaaaaaaaaaa".toList] ∧
    (5 : ℚ) < (calculate_text_dimensions ("aaaaaaaaaaaaaaaaaaaa".toList) 1).1 ∧
    finalLines (wrapWords 1 5 (pySplit ("aaaaaaaaaaaaaaaaaaaa".toList))) =
      [[], "aaaaaaaaaaaaaaaaaaaa".toList] :=
  ⟨by decide, lt_of_lt_of_eq (by decide) width_twenty_a.symm,
    C1_theorem ("aaaaaaaaaaaaaaaaaaaa".toList) 1 5
      ("aaaaaaaaaaaaaaaaaaaa".toList) (by decide)
      (lt_of_lt_of_eq (by decide) width_twenty_a.symm)⟩

/-! ### C2 -/

/-- C2 counterexample: on a page with zero text blocks, top placement does
not yield a box at all — the call raises `noTextBlocksFound` — so the
claim's "including a page with zero text blocks" fails. -/
theorem C2_counterexample :
    (detect_bounding_box pageNoBlocks ("hi".toList) "top" 12).1 =
      Except.error PdfError.noTextBlocksFound := by
  rw [detect_no_blocks_eq pageNoBlocks ("hi".toList) "top" 12 rfl]

/-- C2 (amended): for every page with at least one text block and every
input text, top placement returns a box whose `x0` and `y0` both equal the
margin 10. -/
theorem C2_theorem (page : Page) (text : List Char) (font_size : ℚ)
    (hb : page.blocks ≠ []) :
    (detect_bounding_box page text "top" font_size).1 =
      Except.ok (10, 10,
        min (10 + (wrapWords font_size (page.width - 2 * 10)
          (pySplit text)).max_line_width) (page.width - 10),
        10 + font_size * 1.5 * ((finalLines (wrapWords font_size
          (page.width - 2 * 10) (pySplit text))).length : ℚ)) := by
  rw [detect_top_eq page text font_size hb]

/-- C2 witness: the amended claim at a concrete one-block page. -/
theorem C2_witness :
    (detect_bounding_box pageOneBlock ("hi".toList) "top" 12).1 =
      Except.ok (10, 10,
        min (10 + (wrapWords 12 (pageOneBlock.width - 2 * 10)
          (pySplit ("hi".toList))).max_line_width) (pageOneBlock.width - 10),
        10 + 12 * 1.5 * ((finalLines (wrapWords 12
          (pageOneBlock.width - 2 * 10) (pySplit ("hi".toList)))).length : ℚ)) :=
  C2_theorem pageOneBlock ("hi".toList) 12 (by decide)

/-! ### C3 -/

/-- C3 counterexample: with the empty input text, bottom placement on a
page whose single non-blank block has `y1 = 100` yields `y0 = 10`, not
`lowestExistingTextY1 + margin = 110`. -/
theorem C3_counterexample :
    (detect_bounding_box pageBlockY100 [] "bottom" 12).1 =
      Except.ok (10, 10, 10, 10) ∧
    lowestExistingTextY1 pageBlockY100.blocks + 10 = 110 ∧ (10 : ℚ) ≠ 110 := by
  refine ⟨?_, ?_, by norm_num⟩
  · norm_num +decide [pageBlockY100, detect_bounding_box, pySplit, pySplitAux,
      wrapWords, wrapStep, finalLines, calculate_text_dimensions, pyStrip,
      lowest_y1_calc]
  · norm_num +decide [pageBlockY100, lowestExistingTextY1, pyStrip]

/-- C3 (amended): for every page with at least one text block and every
NON-EMPTY input text, bottom placement yields
`y0 = lowestExistingTextY1 + margin`, where `lowestExistingTextY1` is the
maximum `y1` over blocks with non-blank text (0 if none). -/
theorem C3_theorem (page : Page) (text : List Char) (font_size : ℚ)
    (hb : page.blocks ≠ []) (ht : text ≠ []) :
    (detect_bounding_box page text "bottom" font_size).1 =
      Except.ok (10, lowestExistingTextY1 page.blocks + 10,
        min (10 + (wrapWords font_size (page.width - 2 * 10)
          (pySplit text)).max_line_width) (page.width - 10),
        lowestExistingTextY1 page.blocks + 10 + font_size * 1.5 *
          ((finalLines (wrapWords font_size (page.width - 2 * 10)
            (pySplit text))).length : ℚ)) := by
  rw [detect_bottom_eq page text font_size hb,
    lowest_y1_eq_spec page.blocks text ht]

/-- C3 witness: the amended claim at the concrete page with `y1 = 100`. -/
theorem C3_witness :
    (detect_bounding_box pageBlockY100 ("wm".toList) "bottom" 12).1 =
      Except.ok (10, lowestExistingTextY1 pageBlockY100.blocks + 10,
        min (10 + (wrapWords 12 (pageBlockY100.width - 2 * 10)
          (pySplit ("wm".toList))).max_line_width) (pageBlockY100.width - 10),
        lowestExistingTextY1 pageBlockY100.blocks + 10 + 12 * 1.5 *
          ((finalLines (wrapWords 12 (pageBlockY100.width - 2 * 10)
            (pySplit ("wm".toList)))).length : ℚ)) :=
  C3_theorem pageBlockY100 ("wm".toList) 12 (by decide) (by decide)

/-! ### C4 -/

/-- C4 counterexample: with `location="left"` on a page with zero text
blocks, the call raises `noTextBlocksFound` — not the `invalidLocation`
condition the claim promises (though still with no mutation). -/
theorem C4_counterexample :
    detect_bounding_box pageNoBlocks ("hi".toList) "left" 12 =
      (Except.error PdfError.noTextBlocksFound, []) ∧
    PdfError.noTextBlocksFound ≠ PdfError.invalidLocation :=
  ⟨detect_no_blocks_eq pageNoBlocks ("hi".toList) "left" 12 rfl, by decide⟩

/-- C4 (amended): on every page with at least one text block, calling with
a location that is neither `"top"` nor `"bottom"` raises `invalidLocation`
and performs no document mutation (empty effect trace: nothing drawn,
inserted, or saved). -/
theorem C4_theorem (page : Page) (text : List Char) (location : String)
    (font_size : ℚ) (hb : page.blocks ≠ [])
    (h1 : location ≠ "top") (h2 : location ≠ "bottom") :
    detect_bounding_box page text location font_size =
      (Except.error PdfError.invalidLocation, []) :=
  detect_invalid_eq page text location font_size hb h1 h2

/-- C4 witness: the amended claim at `location="left"` on a one-block page. -/
theorem C4_witness :
    detect_bounding_box pageOneBlock ("hi".toList) "left" 12 =
      (Except.error PdfError.invalidLocation, []) :=
  C4_theorem pageOneBlock ("hi".toList) "left" 12 (by decide) (by decide)
    (by decide)

/-! ### C5 -/

/-- C5: if every individual word's measured width is at most the width
budget, the greedy wrap emits no line whose measured width exceeds it. -/
theorem C5_theorem (text : List Char) (font_size box_width : ℚ)
    (h : ∀ w ∈ pySplit text,
      (calculate_text_dimensions w font_size).1 ≤ box_width) :
    ∀ l ∈ finalLines (wrapWords font_size box_width (pySplit text)),
      (calculate_text_dimensions l font_size).1 ≤ box_width := by
  apply wrap_lines_bounded
  intro w hw
  obtain ⟨h1, h2⟩ := pySplit_tokens text w hw
  exact ⟨h1, h2, h w hw⟩

/-- C5 witness: `"aa bb cc"` at font size 2 with budget 3 — each word has
width 2 ≤ 3, and the emitted line `"aa"` fits. -/
theorem C5_witness : (calculate_text_dimensions ("aa".toList) 2).1 ≤ 3 :=
  C5_theorem ("aa bb cc".toList) 2 3 c5_words_fit ("aa".toList)
    (c5_lines_eval.symm ▸ (by decide : "aa".toList ∈
      ["aa".toList, "bb".toList, "cc".toList]))

/-! ### C6 -/

/-- C6: for `"aaa bbb"` at font size 2 with budget 5, the candidate
`"aaa bbb"` (width 7) is rejected and never emitted, yet `max_line_width`
equals its width, strictly exceeding the width of every emitted line. -/
theorem C6_theorem :
    (wrapWords 2 5 (pySplit ("aaa bbb".toList))).max_line_width =
      (calculate_text_dimensions ("aaa bbb".toList) 2).1 ∧
    ("aaa bbb".toList) ∉ finalLines (wrapWords 2 5 (pySplit ("aaa bbb".toList))) ∧
    ∀ l ∈ finalLines (wrapWords 2 5 (pySplit ("aaa bbb".toList))),
      (calculate_text_dimensions l 2).1 <
        (wrapWords 2 5 (pySplit ("aaa bbb".toList))).max_line_width := by
  refine ⟨?_, ?_, ?_⟩ <;>
    norm_num +decide [pySplit, pySplitAux, wrapWords, wrapStep, finalLines,
      calculate_text_dimensions, pyStrip]

/-! ### C7 -/

/-- C7: whenever `detect_bounding_box` returns a box `(x0, y0, x1, y1)`,
`x1 = min(x0 + max_line_width, page.width - margin)` (hence
`x1 ≤ page.width - margin`) and `y1 = y0 + font_size * 1.5 * len(lines)`. -/
theorem C7_theorem (page : Page) (text : List Char) (location : String)
    (font_size : ℚ) (x0 y0 x1 y1 : ℚ)
    (h : (detect_bounding_box page text location font_size).1 =
      Except.ok (x0, y0, x1, y1)) :
    x1 = min (x0 + (wrapWords font_size (page.width - 2 * 10)
      (pySplit text)).max_line_width) (page.width - 10) ∧
    x1 ≤ page.width - 10 ∧
    y1 = y0 + font_size * 1.5 * ((finalLines (wrapWords font_size
      (page.width - 2 * 10) (pySplit text))).length : ℚ) := by
  by_cases hb : page.blocks = []
  · rw [detect_no_blocks_eq page text location font_size hb] at h
    exact absurd h (by simp)
  · by_cases h1 : location = "top"
    · subst h1
      rw [detect_top_eq page text font_size hb] at h
      simp only [Except.ok.injEq, Prod.mk.injEq] at h
      obtain ⟨ha, hc, hd, he⟩ := h
      subst ha; subst hc; subst hd; subst he
      exact ⟨rfl, min_le_right _ _, rfl⟩
    · by_cases h2 : location = "bottom"
      · subst h2
        rw [detect_bottom_eq page text font_size hb] at h
        simp only [Except.ok.injEq, Prod.mk.injEq] at h
        obtain ⟨ha, hc, hd, he⟩ := h
        subst ha; subst hc; subst hd; subst he
        exact ⟨rfl, min_le_right _ _, rfl⟩
      · rw [detect_invalid_eq page text location font_size hb h1 h2] at h
        exact absurd h (by simp)

/-- C7 witness: the concrete run on `pageOneBlock` returning
`(10, 10, 22, 28)` satisfies the far-corner equations. -/
theorem C7_witness :
    (22 : ℚ) = min (10 + (wrapWords 12 (pageOneBlock.width - 2 * 10)
      (pySplit ("hi".toList))).max_line_width) (pageOneBlock.width - 10) ∧
    (22 : ℚ) ≤ pageOneBlock.width - 10 ∧
    (28 : ℚ) = 10 + 12 * 1.5 * ((finalLines (wrapWords 12
      (pageOneBlock.width - 2 * 10) (pySplit ("hi".toList)))).length : ℚ) :=
  C7_theorem pageOneBlock ("hi".toList) "top" 12 10 10 22 28 c7_concrete_run

/-! ### C8 -/

/-- C8: wrapping the empty string yields an empty list of lines and zero
total height `font_size * 1.5 * 0 = 0`. -/
theorem C8_theorem (font_size box_width : ℚ) :
    finalLines (wrapWords font_size box_width (pySplit ("".toList))) = [] ∧
    font_size * 1.5 * ((finalLines (wrapWords font_size box_width
      (pySplit ("".toList)))).length : ℚ) = 0 := by
  have h : finalLines (wrapWords font_size box_width (pySplit ("".toList))) = [] :=
    rfl
  refine ⟨h, ?_⟩
  rw [h]
  simp

/-! ### C9 -/

/-- C9: with the empty input text, the per-block filter never fires, the
baseline stays 0, and bottom placement yields `y0 = margin = 10` no matter
what `y1` values the page's blocks have. -/
theorem C9_theorem (page : Page) (font_size : ℚ) (hb : page.blocks ≠ []) :
    (detect_bounding_box page [] "bottom" font_size).1 =
      Except.ok (10, 10, min 10 (page.width - 10), 10) := by
  rw [detect_bottom_eq page [] font_size hb, lowest_y1_empty_text page.blocks]
  have h1 : wrapWords font_size (page.width - 2 * 10) (pySplit ([] : List Char)) =
      ⟨[], [], 0⟩ := rfl
  rw [h1]
  norm_num [finalLines]

/-- C9 witness: on the page whose block has `y1 = 100`, empty text still
gives `y0 = 10`. -/
theorem C9_witness :
    (detect_bounding_box pageBlockY100 [] "bottom" 12).1 =
      Except.ok (10, 10, min 10 (pageBlockY100.width - 10), 10) :=
  C9_theorem pageBlockY100 12 (by decide)

/-! ### C10 -/

/-- C10: the standalone helper `calculate_bounding_box` with
`location="bottom"` always returns
`(10, H - fs*1.5 - 10, W - 10, H - 10)`, anchored to the page's bottom
edge and independent of any text blocks. -/
theorem C10_theorem (page_width page_height font_size : ℚ) :
    calculate_bounding_box page_width page_height font_size "bottom" =
      Except.ok (10, page_height - font_size * 1.5 - 10, page_width - 10,
        page_height - 10) := by
  rfl
